import Mathlib

/-
Verification of the mini-crm repository (Express + MongoDB backend, Next.js
frontend) against its natural-language specification.

The embedding below is a shallow model of:
  - the data model implied by seed/seed.js and the README (Users, Leads,
    Customers, Tasks);
  - the seed script seed/seed.js, parametrised by its Math.random draws;
  - the auth route table src/routes/auth.js;
  - the login form handler pages/login.js;
  - spec-modelled pieces for code that is not in the source tree
    (auth middleware semantics, the login controller, lead conversion,
    the derived overdue predicate).  Each such definition carries a doc
    comment starting with "Modelled from the spec:".
-/

namespace MiniCRM

/-- The two roles the backend recognises (README, seed/seed.js). -/
inductive Role where
  | admin
  | agent
deriving DecidableEq, Repr

/-- A User document: name, email, password, role, isActive (README data model,
seed/seed.js).  `isActive` defaults to true for users created without it.  The
stored `password` stands for the bcrypt credential; comparing it with a
submitted password is modelled as string equality. -/
structure User where
  id : Nat
  name : String
  email : String
  password : String
  role : Role
  isActive : Bool
deriving DecidableEq, Repr

/-- A Lead document: name, email, phone, status, source, assignedAgent,
archived, history (README data model, seed/seed.js). -/
structure Lead where
  id : Nat
  name : String
  email : String
  phone : String
  status : String
  source : String
  assignedAgent : Nat
  archived : Bool
  history : List String
deriving DecidableEq, Repr

/-- A Customer document: name, company, email, phone, notes, tags, owner
(README data model, seed/seed.js). -/
structure Customer where
  id : Nat
  name : String
  company : String
  email : String
  phone : String
  owner : Nat
  tags : List String
  notes : List String
deriving DecidableEq, Repr

/-- A Task document: title, dueDate, status, priority, relatedType, relatedId,
owner (README data model, seed/seed.js).  `dueDate` is milliseconds since the
epoch, as `Date.now()` produces.  Note there is no stored overdue field. -/
structure Task where
  id : Nat
  title : String
  dueDate : Int
  status : String
  priority : String
  relatedType : String
  relatedId : Nat
  owner : Nat
deriving DecidableEq, Repr

/-- The four Mongo collections the seed script touches. -/
structure DB where
  users : List User
  leads : List Lead
  customers : List Customer
  tasks : List Task
deriving DecidableEq, Repr

/-- seed/seed.js line 31: the lead status pool. -/
def leadStatuses : List String := ["New", "In Progress", "Closed Won", "Closed Lost"]

/-- seed/seed.js line 32: the lead source pool. -/
def leadSources : List String := ["Website", "Referral", "Cold Call", "LinkedIn", "Email"]

/-- seed/seed.js line 56: the customer company pool. -/
def seedCompanies : List String := ["Acme Inc", "Globex", "Initech", "Umbrella", "Stark Industries"]

/-- seed/seed.js line 74: the task status pool. -/
def taskStatuses : List String := ["Open", "In Progress", "Done"]

/-- seed/seed.js line 75: the task priority pool. -/
def taskPriorities : List String := ["Low", "Medium", "High"]

/-- seed/seed.js `rand(arr)`, which returns
`arr[Math.floor(Math.random()*arr.length)]`.  The random draw is abstracted as
an arbitrary natural `k`; the index `k % arr.length` ranges over exactly the
positions the JS expression can produce on a nonempty array. -/
def rand (arr : List String) (k : Nat) : String := arr.getD (k % arr.length) ""

/-- One run's worth of the nondeterminism in seed/seed.js: the
`Math.random()`-driven names, emails, phones and `rand` draws, indexed by the
loop counter of the insertion loop that consumes them. -/
structure SeedChoices where
  leadName : Nat → String
  leadEmail : Nat → String
  leadPhone : Nat → String
  leadStatus : Nat → Nat
  leadSource : Nat → Nat
  custName : Nat → String
  custEmail : Nat → String
  custPhone : Nat → String
  custCompany : Nat → Nat
  taskStatus : Nat → Nat
  taskPriority : Nat → Nat

/-- Mongo object ids are modelled as naturals handed out in creation order:
the admin is created first. -/
def adminId : Nat := 0

/-- The first agent, created second. -/
def agent1Id : Nat := 1

/-- The second agent, created third. -/
def agent2Id : Nat := 2

/-- seed/seed.js line 26: the admin user. -/
def seedAdmin : User :=
  { id := adminId, name := "Admin User", email := "admin@crm.com",
    password := "Admin@123", role := Role.admin, isActive := true }

/-- seed/seed.js line 27: the first agent. -/
def seedAgent1 : User :=
  { id := agent1Id, name := "Agent One", email := "agent1@crm.com",
    password := "Agent@123", role := Role.agent, isActive := true }

/-- seed/seed.js line 28: the second agent. -/
def seedAgent2 : User :=
  { id := agent2Id, name := "Agent Two", email := "agent2@crm.com",
    password := "Agent@123", role := Role.agent, isActive := true }

/-- The three users the seed creates, in creation order. -/
def seedUsers : List User := [seedAdmin, seedAgent1, seedAgent2]

/-- seed/seed.js lines 34-46: the i-th seeded lead.  Leads receive ids 3..12
(created after the three users). -/
def seedLead (c : SeedChoices) (i : Nat) : Lead :=
  { id := 3 + i
    name := c.leadName i
    email := c.leadEmail i
    phone := c.leadPhone i
    status := rand leadStatuses (c.leadStatus i)
    source := rand leadSources (c.leadSource i)
    assignedAgent := if i % 2 = 0 then agent1Id else agent2Id
    archived := false
    history := ["seeded"] }

/-- seed/seed.js line 47: the ten leads inserted by `Lead.insertMany`. -/
def seedLeads (c : SeedChoices) : List Lead := (List.range 10).map (seedLead c)

/-- seed/seed.js lines 51-62: the i-th seeded customer.  Customers receive
ids 13..17. -/
def seedCustomer (c : SeedChoices) (i : Nat) : Customer :=
  { id := 13 + i
    name := c.custName i
    company := rand seedCompanies (c.custCompany i)
    email := c.custEmail i
    phone := c.custPhone i
    owner := if i % 2 = 0 then agent1Id else agent2Id
    tags := ["vip"]
    notes := [] }

/-- seed/seed.js line 63: the five customers inserted by `Customer.insertMany`. -/
def seedCustomers (c : SeedChoices) : List Customer := (List.range 5).map (seedCustomer c)

/-- Placeholder used only as the `getD` default when indexing the customer
array; the seed indexes with `i % insertedCustomers.length`, which is always in
range, so this value is never selected. -/
def noCustomer : Customer :=
  { id := 0, name := "", company := "", email := "", phone := "",
    owner := 0, tags := [], notes := [] }

/-- seed/seed.js lines 67-80: the i-th seeded task.  Tasks receive ids 18..25.
Even i: related to the lead returned by `Lead.findOne()` (the first lead
document).  Odd i: related to `insertedCustomers[i % insertedCustomers.length]`.
`now` is the value of `Date.now()`; the due date is `now + (i-3)` days. -/
def seedTask (c : SeedChoices) (now : Int) (i : Nat) : Task :=
  { id := 18 + i
    title := "Follow up " ++ toString (i + 1)
    dueDate := now + ((i : Int) - 3) * 86400000
    status := rand taskStatuses (c.taskStatus i)
    priority := rand taskPriorities (c.taskPriority i)
    relatedType := if i % 2 = 0 then "Lead" else "Customer"
    relatedId :=
      if i % 2 = 0 then
        ((((seedLeads c).head?).map Lead.id).getD 0)
      else
        ((seedCustomers c).getD (i % (seedCustomers c).length) noCustomer).id
    owner := if i % 2 = 0 then agent1Id else agent2Id }

/-- seed/seed.js line 81: the eight tasks inserted by `Task.insertMany`. -/
def seedTasks (c : SeedChoices) (now : Int) : List Task := (List.range 8).map (seedTask c now)

/-- The database contents the seed inserts. -/
def seedDB (c : SeedChoices) (now : Int) : DB :=
  { users := seedUsers, leads := seedLeads c, customers := seedCustomers c,
    tasks := seedTasks c now }

/-- seed/seed.js line 23: `deleteMany` with an empty filter on all four
collections. -/
def clearAll (_db : DB) : DB := { users := [], leads := [], customers := [], tasks := [] }

/-- The create/insertMany phase of the seed, appended to whatever the database
holds once the deletes have run. -/
def insertSeedData (c : SeedChoices) (now : Int) (db : DB) : DB :=
  { users := db.users ++ seedUsers
    leads := db.leads ++ seedLeads c
    customers := db.customers ++ seedCustomers c
    tasks := db.tasks ++ seedTasks c now }

/-- The whole seed run as a transition on database state: first the awaited
`deleteMany` calls, then the inserts (seed/seed.js lines 23-81). -/
def runSeed (c : SeedChoices) (now : Int) (db : DB) : DB :=
  insertSeedData c now (clearAll db)

/-- A concrete instantiation of the seed's random draws, used to evaluate the
universally quantified seed theorems on one run. -/
def anyChoices : SeedChoices :=
  { leadName := fun _ => "x", leadEmail := fun _ => "x", leadPhone := fun _ => "x",
    leadStatus := fun _ => 0, leadSource := fun _ => 0,
    custName := fun _ => "x", custEmail := fun _ => "x", custPhone := fun _ => "x",
    custCompany := fun _ => 0, taskStatus := fun _ => 0, taskPriority := fun _ => 0 }

/-- HTTP methods used by src/routes/auth.js. -/
inductive Method where
  | get
  | post
  | patch
  | delete
deriving DecidableEq, Repr

/-- The middleware an auth route can place in front of its controller:
`auth` (bearer-token check), `requireRole r` (role gate), `validate rule`
(an express-validator rule set from utils/validation.js). -/
inductive Middleware where
  | auth
  | requireRole (role : String)
  | validate (rule : String)
deriving DecidableEq, Repr

/-- A registered route: method, path, the middleware chain in registration
order, and the controller it ends in. -/
structure Route where
  method : Method
  path : String
  chain : List Middleware
  controller : String
deriving DecidableEq, Repr

/-- The route table of src/routes/auth.js, one entry per `router.<method>`
call, with each route's middleware chain exactly as registered on lines 6-14.
Note line 9: `router.post('/logout', ctrl.logout)` attaches no middleware at
all. -/
def authRoutes : List Route :=
  [ { method := Method.post, path := "/register",
      chain := [Middleware.auth, Middleware.requireRole "admin", Middleware.validate "register"],
      controller := "register" },
    { method := Method.post, path := "/login",
      chain := [Middleware.validate "login"], controller := "login" },
    { method := Method.post, path := "/refresh",
      chain := [Middleware.validate "refresh"], controller := "refresh" },
    { method := Method.post, path := "/logout",
      chain := [], controller := "logout" },
    { method := Method.get, path := "/users",
      chain := [Middleware.auth, Middleware.requireRole "admin"], controller := "listUsers" },
    { method := Method.patch, path := "/users/:id",
      chain := [Middleware.auth, Middleware.requireRole "admin"], controller := "updateUser" },
    { method := Method.delete, path := "/users/:id",
      chain := [Middleware.auth, Middleware.requireRole "admin"], controller := "deleteUser" } ]

/-- The logout route as registered on src/routes/auth.js line 9. -/
def logoutRoute : Route :=
  { method := Method.post, path := "/logout", chain := [], controller := "logout" }

/-- The login route as registered on src/routes/auth.js line 7. -/
def loginRouteEntry : Route :=
  { method := Method.post, path := "/login",
    chain := [Middleware.validate "login"], controller := "login" }

/-- The refresh route as registered on src/routes/auth.js line 8. -/
def refreshRouteEntry : Route :=
  { method := Method.post, path := "/refresh",
    chain := [Middleware.validate "refresh"], controller := "refresh" }

/-- The decoded identity an access token carries: id, role, name (spec 4.1,
README). -/
structure Identity where
  id : Nat
  role : String
  name : String
deriving DecidableEq, Repr

/-- The state of the bearer access token on an incoming request: absent,
present but invalid (bad signature or expired), or valid and decoding to an
identity. -/
inductive TokenState where
  | missing
  | invalid
  | valid (who : Identity)
deriving DecidableEq, Repr

/-- What dispatching a request through a middleware chain produces: either the
controller runs (with the identity the middleware attached, if any), or some
middleware rejected the request with an HTTP status code. -/
inductive Outcome where
  | reached (controller : String) (who : Option Identity)
  | rejected (code : Nat)
deriving DecidableEq, Repr

/-- Modelled from the spec: src/middleware/auth.js is not in the source tree.
Spec 4.2: the auth middleware "verifies the bearer access token
signature/expiry, attaches the decoded identity to the request context, fails
with Unauthorized (401) if absent/invalid"; `requireRole` "fails with Forbidden
(403) when the caller's role is not in the allowed set for a route".
Validation rules reject malformed bodies with 400 before the controller; the
claims here concern requests with well-formed bodies, on which validation
passes, so `validate` forwards the request. -/
def runChain (tok : TokenState) : List Middleware → Option Identity → String → Outcome
  | [], who, ctrl => Outcome.reached ctrl who
  | Middleware.auth :: rest, _, ctrl =>
    match tok with
    | TokenState.valid i => runChain tok rest (some i) ctrl
    | _ => Outcome.rejected 401
  | Middleware.requireRole r :: rest, who, ctrl =>
    match who with
    | some i => if i.role == r then runChain tok rest who ctrl else Outcome.rejected 403
    | none => Outcome.rejected 403
  | Middleware.validate _ :: rest, who, ctrl => runChain tok rest who ctrl

/-- Dispatch a request with token state `tok` through a route's chain; no
identity is attached before the chain runs. -/
def runRoute (tok : TokenState) (r : Route) : Outcome :=
  runChain tok r.chain none r.controller

/-- The controllers of the admin-only user-management surface: registration
plus the `/auth/users` CRUD (src/routes/auth.js lines 6 and 12-14). -/
def userMgmtControllers : List String := ["register", "listUsers", "updateUser", "deleteUser"]

/-- The payload of a successful login (spec 4.1). -/
structure AuthTokens where
  accessToken : String
  refreshToken : String
  user : User
deriving DecidableEq, Repr

/-- Modelled from the spec: the signed access token, "short-lived signed claims
containing (id, role, name)" (spec 4.1); rendered as a nonempty string over
those claims. -/
def signAccess (u : User) : String :=
  "access." ++ toString u.id ++ "." ++ (match u.role with
    | Role.admin => "admin"
    | Role.agent => "agent") ++ "." ++ u.name

/-- Modelled from the spec: the signed refresh token, "longer-lived and
validated against a separate secret" (spec 4.1). -/
def signRefresh (u : User) : String := "refresh." ++ toString u.id

/-- Lookup a user by email, as a unique-email collection makes well defined. -/
def findUserByEmail (db : DB) (email : String) : Option User :=
  db.users.find? (fun u => u.email == email)

/-- Modelled from the spec: `login(email, password)` of the auth service
(src/controllers/authController.js is not in the source tree).  Spec 4.1:
returns access and refresh tokens plus the user, and "fails with
InvalidCredentials on mismatch or inactive account".  The bcrypt comparison is
modelled as equality of the stored credential with the submitted password. -/
def login (db : DB) (email pw : String) : Except String AuthTokens :=
  match findUserByEmail db email with
  | none => Except.error "Invalid credentials"
  | some u =>
    match u.isActive && (u.password == pw) with
    | true => Except.ok { accessToken := signAccess u, refreshToken := signRefresh u, user := u }
    | false => Except.error "Invalid credentials"

/-- The HTTP shape of the login endpoint's answer: 200 with the two tokens, or
401 with a message body (spec 6 and 8). -/
inductive LoginResponse where
  | ok (accessToken refreshToken : String)
  | unauthorized (message : String)
deriving DecidableEq, Repr

/-- The login endpoint: serialise the service result as 200 or 401. -/
def loginEndpoint (db : DB) (email pw : String) : LoginResponse :=
  match login db email pw with
  | Except.ok t => LoginResponse.ok t.accessToken t.refreshToken
  | Except.error m => LoginResponse.unauthorized m

/-- Lookup a lead by id. -/
def findLead (db : DB) (i : Nat) : Option Lead :=
  db.leads.find? (fun l => l.id == i)

/-- Update the first lead carrying the given id, leaving every other document
unchanged — the effect of a Mongo `findById` followed by `save()`, which
touches exactly one document. -/
def updateLeadById (f : Lead → Lead) : List Lead → Nat → List Lead
  | [], _ => []
  | l :: ls, i => if l.id = i then f l :: ls else l :: updateLeadById f ls i

/-- Modelled from the spec: Lead `convert`
(src/controllers/leadController.js is not in the source tree).  Spec 4.3/8:
"creates a Customer from the Lead's fields, sets Lead status to Closed Won,
appends history + Activity entries"; "converting a lead always yields exactly
one new Customer".  `freshId` is the id Mongo assigns the new Customer
document.  A convert on an id with no lead is a NotFound and changes nothing. -/
def convert (db : DB) (leadId freshId : Nat) : DB :=
  match findLead db leadId with
  | none => db
  | some l =>
    { db with
      customers := db.customers ++
        [{ id := freshId, name := l.name, company := "", email := l.email,
           phone := l.phone, owner := l.assignedAgent, tags := [], notes := [] }]
      leads := updateLeadById
        (fun x => { x with status := "Closed Won", history := x.history ++ ["converted"] })
        db.leads leadId }

/-- The number of leads currently in status Closed Won. -/
def closedWonCount (db : DB) : Nat :=
  db.leads.countP (fun l => l.status == "Closed Won")

/-- Modelled from the spec: the derived overdue property of a task, spec 3:
"Overdue is a derived property (dueDate < now && status != Done), not stored"
(the dashboard/task controllers are not in the source tree).  The Task record
carries no overdue field; this predicate reads only `dueDate` and `status`. -/
def isOverdue (now : Int) (t : Task) : Bool :=
  decide (t.dueDate < now) && !(t.status == "Done")

/-- A demonstration lead used to evaluate the conversion theorem on one run. -/
def demoLead : Lead :=
  { id := 3, name := "Demo Lead", email := "demo@example.com", phone := "+910000000000",
    status := "New", source := "Website", assignedAgent := agent1Id,
    archived := false, history := ["seeded"] }

/-- A demonstration database holding the seeded users and one lead. -/
def demoDB : DB :=
  { users := seedUsers, leads := [demoLead], customers := [], tasks := [] }

/-- The observable effects pages/login.js can perform from `onSubmit`:
a localStorage write, a router navigation, or an alert. -/
inductive Effect where
  | setItem (key value : String)
  | push (path : String)
  | alertMsg (message : String)
deriving DecidableEq, Repr

/-- True exactly on localStorage writes. -/
def isWrite : Effect → Bool
  | Effect.setItem _ _ => true
  | _ => false

/-- True exactly on navigations. -/
def isNav : Effect → Bool
  | Effect.push _ => true
  | _ => false

/-- JS `m || d` on an optional string: absent and the empty string are falsy
(pages/login.js line 15 reads `e.response?.data?.message || 'Login failed'`,
with `none` covering every absent link of the optional chain). -/
def jsOrStr (m : Option String) (d : String) : String :=
  match m with
  | some s => if s == "" then d else s
  | none => d

/-- What the awaited `login(d.email, d.password)` call inside onSubmit did:
returned a value whose `refreshToken` field may be absent, or threw an error
whose `response?.data?.message` may be absent (context/AuthContext.js is not in
the source tree, so the call is a parameter of the handler). -/
inductive LoginCall where
  | returns (refreshToken : Option String)
  | throws (responseMessage : Option String)
deriving DecidableEq, Repr

/-- pages/login.js lines 9-17, the submit handler: on a return, store the
refresh token when truthy and navigate to the home page; on a throw, alert the
server message, falling back to the fixed text. -/
def onSubmit : LoginCall → List Effect
  | LoginCall.returns rt =>
    (match rt with
     | some v => if v == "" then [] else [Effect.setItem "crm_refresh" v]
     | none => []) ++ [Effect.push "/"]
  | LoginCall.throws m => [Effect.alertMsg (jsOrStr m "Login failed")]

/-- `rand` on a nonempty pool always draws an element of the pool. -/
theorem rand_mem (arr : List String) (k : Nat) (h : arr ≠ []) : rand arr k ∈ arr := by
  have hlen : 0 < arr.length := List.length_pos.mpr h
  have hk : k % arr.length < arr.length := Nat.mod_lt _ hlen
  rw [rand, List.getD_eq_getElem?_getD, List.getElem?_eq_getElem hk]
  exact List.getElem_mem hk

/-- C5: overdue is derived, not stored.  A task is overdue exactly when its
due date is in the past and its status is not Done; a Done task with a past
due date is not overdue; and overdue is a function of the `dueDate` and
`status` fields alone — the Task record (the fields seed/seed.js writes)
stores no overdue flag for it to read. -/
theorem overdue_derived (now : Int) (t u : Task) :
    (isOverdue now t = true ↔ (t.dueDate < now ∧ ¬ t.status = "Done")) ∧
    isOverdue now { t with status := "Done" } = false ∧
    isOverdue now t = isOverdue now { u with dueDate := t.dueDate, status := t.status } := by
  refine ⟨?_, ?_, rfl⟩
  · simp [isOverdue]
  · simp [isOverdue]

/-- The related id a seeded task carries, with the customer-array length
evaluated: 3 is the id of the lead `Lead.findOne()` returns (the first lead
document), and odd tasks index the inserted customers modulo their count. -/
theorem seedTask_relatedId (c : SeedChoices) (now : Int) (i : Nat) :
    (seedTask c now i).relatedId =
      if i % 2 = 0 then 3 else ((seedCustomers c).getD (i % 5) noCustomer).id := by
  have h5 : (seedCustomers c).length = 5 := rfl
  simp only [seedTask, h5]
  split <;> rfl

/-- C6: every task the seed creates references either a Lead or a Customer:
its relatedType is exactly "Lead" or "Customer", and its relatedId is the id
of a seeded record of that tagged type (the lead `Lead.findOne()` returned,
or one of the customers `insertMany` returned). -/
theorem seed_task_related (c : SeedChoices) (now : Int) (t : Task)
    (ht : t ∈ (seedDB c now).tasks) :
    (t.relatedType = "Lead" ∧ ∃ l ∈ (seedDB c now).leads, l.id = t.relatedId) ∨
    (t.relatedType = "Customer" ∧ ∃ cu ∈ (seedDB c now).customers, cu.id = t.relatedId) := by
  have hmem0 : seedLead c 0 ∈ (seedDB c now).leads :=
    List.mem_map.mpr ⟨0, by simp, rfl⟩
  have hcm : ∀ j, j < 5 → seedCustomer c j ∈ (seedDB c now).customers := by
    intro j hj
    exact List.mem_map.mpr ⟨j, List.mem_range.mpr hj, rfl⟩
  have hts : (seedDB c now).tasks = [seedTask c now 0, seedTask c now 1, seedTask c now 2,
      seedTask c now 3, seedTask c now 4, seedTask c now 5, seedTask c now 6,
      seedTask c now 7] := rfl
  rw [hts] at ht
  simp only [List.mem_cons, List.not_mem_nil, or_false] at ht
  rcases ht with rfl | rfl | rfl | rfl | rfl | rfl | rfl | rfl
  · exact Or.inl ⟨rfl, seedLead c 0, hmem0, rfl⟩
  · exact Or.inr ⟨rfl, seedCustomer c 1, hcm 1 (by norm_num),
      by rw [seedTask_relatedId]; rfl⟩
  · exact Or.inl ⟨rfl, seedLead c 0, hmem0, rfl⟩
  · exact Or.inr ⟨rfl, seedCustomer c 3, hcm 3 (by norm_num),
      by rw [seedTask_relatedId]; rfl⟩
  · exact Or.inl ⟨rfl, seedLead c 0, hmem0, rfl⟩
  · exact Or.inr ⟨rfl, seedCustomer c 0, hcm 0 (by norm_num),
      by rw [seedTask_relatedId]; rfl⟩
  · exact Or.inl ⟨rfl, seedLead c 0, hmem0, rfl⟩
  · exact Or.inr ⟨rfl, seedCustomer c 2, hcm 2 (by norm_num),
      by rw [seedTask_relatedId]; rfl⟩

/-- Evaluation of C6 on a concrete seed run and its first task. -/
theorem seed_task_related_witness :
    seedTask anyChoices 0 0 ∈ (seedDB anyChoices 0).tasks ∧
    (((seedTask anyChoices 0 0).relatedType = "Lead" ∧
        ∃ l ∈ (seedDB anyChoices 0).leads, l.id = (seedTask anyChoices 0 0).relatedId) ∨
      ((seedTask anyChoices 0 0).relatedType = "Customer" ∧
        ∃ cu ∈ (seedDB anyChoices 0).customers, cu.id = (seedTask anyChoices 0 0).relatedId)) := by
  have hm : seedTask anyChoices 0 0 ∈ (seedDB anyChoices 0).tasks :=
    List.mem_map.mpr ⟨0, by simp, rfl⟩
  exact ⟨hm, seed_task_related anyChoices 0 (seedTask anyChoices 0 0) hm⟩

/-- Holds of ids that belong to one of the two seeded agents. -/
def isSeedAgent (n : Nat) : Bool := n == agent1Id || n == agent2Id

/-- C8: every seeded Lead, Customer and Task carries an owning user reference:
the lead's assignedAgent, the customer's owner and the task's owner are each
one of the two seeded agents, and never the admin. -/
theorem seed_ownership (c : SeedChoices) (now : Int) :
    ((seedDB c now).leads.all
      (fun l => isSeedAgent l.assignedAgent && !(l.assignedAgent == adminId)) = true) ∧
    ((seedDB c now).customers.all
      (fun cu => isSeedAgent cu.owner && !(cu.owner == adminId)) = true) ∧
    ((seedDB c now).tasks.all
      (fun t => isSeedAgent t.owner && !(t.owner == adminId)) = true) :=
  ⟨rfl, rfl, rfl⟩

/-- C7: every lead inserted by the seed has its status drawn from the
four-value pool New / In Progress / Closed Won / Closed Lost. -/
theorem seed_lead_status_valid (c : SeedChoices) (now : Int) (l : Lead)
    (hl : l ∈ (seedDB c now).leads) :
    l.status ∈ leadStatuses ∧
    leadStatuses = ["New", "In Progress", "Closed Won", "Closed Lost"] := by
  refine ⟨?_, rfl⟩
  have hm : l ∈ (List.range 10).map (seedLead c) := hl
  obtain ⟨i, _, rfl⟩ := List.mem_map.mp hm
  exact rand_mem leadStatuses (c.leadStatus i) (by decide)

/-- Evaluation of C7 on a concrete seed run and its first lead. -/
theorem seed_lead_status_valid_witness :
    seedLead anyChoices 0 ∈ (seedDB anyChoices 0).leads ∧
    ((seedLead anyChoices 0).status ∈ leadStatuses ∧
      leadStatuses = ["New", "In Progress", "Closed Won", "Closed Lost"]) := by
  have hm : seedLead anyChoices 0 ∈ (seedDB anyChoices 0).leads :=
    List.mem_map.mpr ⟨0, by decide, rfl⟩
  exact ⟨hm, seed_lead_status_valid anyChoices 0 (seedLead anyChoices 0) hm⟩

/-- C9: if the login call of pages/login.js throws, the submit handler's only
effect is an alert carrying the server's message, with the fixed fallback text
when none is present; in particular it writes nothing to localStorage and
performs no navigation. -/
theorem login_failure_effects (m : Option String) :
    onSubmit (LoginCall.throws m) = [Effect.alertMsg (jsOrStr m "Login failed")] ∧
    (onSubmit (LoginCall.throws m)).all (fun e => !(isWrite e) && !(isNav e)) = true ∧
    jsOrStr none "Login failed" = "Login failed" :=
  ⟨rfl, rfl, rfl⟩

/-- C10: the seed run clears all four collections before inserting, so its
result does not depend on the prior database contents, and it always ends with
exactly 3 users (one admin, two agents), 10 leads, 5 customers and 8 tasks. -/
theorem seed_counts (c : SeedChoices) (now : Int) (db0 db1 : DB) :
    runSeed c now db0 = runSeed c now db1 ∧
    (runSeed c now db0).users.length = 3 ∧
    (runSeed c now db0).leads.length = 10 ∧
    (runSeed c now db0).customers.length = 5 ∧
    (runSeed c now db0).tasks.length = 8 ∧
    (runSeed c now db0).users.countP (fun u => decide (u.role = Role.admin)) = 1 ∧
    (runSeed c now db0).users.countP (fun u => decide (u.role = Role.agent)) = 2 :=
  ⟨rfl, rfl, rfl, rfl, rfl, rfl, rfl⟩

/-- C1 counterexample: POST /auth/logout is registered with no middleware at
all (src/routes/auth.js line 9), so a request carrying no bearer token reaches
the logout controller instead of being rejected with 401 — refuting the claim
that every route other than login and refresh is guarded by the auth
middleware. -/
theorem logout_reachable_unauthenticated :
    logoutRoute ∈ authRoutes ∧
    ¬ logoutRoute.path = "/login" ∧ ¬ logoutRoute.path = "/refresh" ∧
    runRoute TokenState.missing logoutRoute = Outcome.reached "logout" none ∧
    ¬ runRoute TokenState.missing logoutRoute = Outcome.rejected 401 :=
  ⟨by decide, by decide, by decide, rfl, by decide⟩

/-- C1 (amended): on the auth router, every route other than POST /auth/login,
POST /auth/refresh and POST /auth/logout rejects a request whose bearer access
token is missing or invalid with Unauthorized (401) before its controller
runs; login, refresh and — contrary to the original claim — logout are the
routes reachable unauthenticated. -/
theorem auth_routes_reject_unauthenticated (r : Route) (tok : TokenState)
    (hr : r ∈ authRoutes)
    (h1 : ¬ r.controller = "login") (h2 : ¬ r.controller = "refresh")
    (h3 : ¬ r.controller = "logout")
    (htok : tok = TokenState.missing ∨ tok = TokenState.invalid) :
    runRoute tok r = Outcome.rejected 401 ∧
    runRoute TokenState.missing loginRouteEntry = Outcome.reached "login" none ∧
    runRoute TokenState.missing refreshRouteEntry = Outcome.reached "refresh" none ∧
    runRoute TokenState.missing logoutRoute = Outcome.reached "logout" none := by
  refine ⟨?_, rfl, rfl, rfl⟩
  fin_cases hr <;>
    first
      | exact absurd rfl h1
      | exact absurd rfl h2
      | exact absurd rfl h3
      | rcases htok with rfl | rfl <;> rfl

/-- Evaluation of the amended C1 on GET /auth/users with a missing token. -/
theorem auth_routes_reject_unauthenticated_witness :
    ({ method := Method.get, path := "/users",
       chain := [Middleware.auth, Middleware.requireRole "admin"],
       controller := "listUsers" } : Route) ∈ authRoutes ∧
    (runRoute TokenState.missing
        { method := Method.get, path := "/users",
          chain := [Middleware.auth, Middleware.requireRole "admin"],
          controller := "listUsers" } = Outcome.rejected 401 ∧
      runRoute TokenState.missing loginRouteEntry = Outcome.reached "login" none ∧
      runRoute TokenState.missing refreshRouteEntry = Outcome.reached "refresh" none ∧
      runRoute TokenState.missing logoutRoute = Outcome.reached "logout" none) :=
  ⟨by decide,
    auth_routes_reject_unauthenticated
      { method := Method.get, path := "/users",
        chain := [Middleware.auth, Middleware.requireRole "admin"],
        controller := "listUsers" }
      TokenState.missing (by decide) (by decide) (by decide) (by decide)
      (Or.inl rfl)⟩

/-- C2: POST /auth/register, GET /auth/users, PATCH /auth/users/:id and
DELETE /auth/users/:id each start their middleware chain with auth followed by
requireRole admin; a caller whose valid token carries a non-admin role is
rejected with Forbidden (403) — so its controller is never invoked for such a
caller — and an unauthenticated caller is stopped by auth with 401 first. -/
theorem user_mgmt_admin_only (r : Route) (i : Identity)
    (hr : r ∈ authRoutes) (hc : r.controller ∈ userMgmtControllers)
    (hrole : ¬ i.role = "admin") :
    r.chain.take 2 = [Middleware.auth, Middleware.requireRole "admin"] ∧
    runRoute (TokenState.valid i) r = Outcome.rejected 403 ∧
    runRoute TokenState.missing r = Outcome.rejected 401 ∧
    runRoute TokenState.invalid r = Outcome.rejected 401 := by
  have hb : (i.role == "admin") = false := beq_eq_false_iff_ne.mpr hrole
  fin_cases hr <;>
    first
      | exact absurd hc (by decide)
      | exact ⟨rfl, by simp [runRoute, runChain, hb], rfl, rfl⟩

/-- Evaluation of C2 on POST /auth/register with an agent caller. -/
theorem user_mgmt_admin_only_witness :
    ({ method := Method.post, path := "/register",
       chain := [Middleware.auth, Middleware.requireRole "admin", Middleware.validate "register"],
       controller := "register" } : Route) ∈ authRoutes ∧
    (({ method := Method.post, path := "/register",
        chain := [Middleware.auth, Middleware.requireRole "admin", Middleware.validate "register"],
        controller := "register" } : Route).chain.take 2 =
        [Middleware.auth, Middleware.requireRole "admin"] ∧
      runRoute (TokenState.valid { id := 9, role := "agent", name := "Agent" })
        { method := Method.post, path := "/register",
          chain := [Middleware.auth, Middleware.requireRole "admin", Middleware.validate "register"],
          controller := "register" } = Outcome.rejected 403 ∧
      runRoute TokenState.missing
        { method := Method.post, path := "/register",
          chain := [Middleware.auth, Middleware.requireRole "admin", Middleware.validate "register"],
          controller := "register" } = Outcome.rejected 401 ∧
      runRoute TokenState.invalid
        { method := Method.post, path := "/register",
          chain := [Middleware.auth, Middleware.requireRole "admin", Middleware.validate "register"],
          controller := "register" } = Outcome.rejected 401) :=
  ⟨by decide,
    user_mgmt_admin_only
      { method := Method.post, path := "/register",
        chain := [Middleware.auth, Middleware.requireRole "admin", Middleware.validate "register"],
        controller := "register" }
      { id := 9, role := "agent", name := "Agent" }
      (by decide) (by decide) (by decide)⟩

/-- Updating the one lead a conversion touches rewrites the first document
with that id in place: `find?` on the updated collection returns the updated
document (for an id-preserving update). -/
theorem find?_updateLeadById (f : Lead → Lead) (i : Nat)
    (hf : ∀ x, (f x).id = x.id) (ls : List Lead) :
    ∀ l : Lead, ls.find? (fun x => x.id == i) = some l →
      (updateLeadById f ls i).find? (fun x => x.id == i) = some (f l) := by
  induction ls with
  | nil => intro l h; simp at h
  | cons a as ih =>
    intro l h
    by_cases hid : a.id = i
    · have hpos : (a.id == i) = true := by simp [hid]
      simp only [List.find?, hpos] at h
      injection h with h
      subst h
      have hpos2 : ((f a).id == i) = true := by simp [hf a, hid]
      simp [updateLeadById, hid, List.find?, hpos2]
    · have hneg : (a.id == i) = false := by simp [hid]
      simp only [List.find?, hneg] at h
      simp [updateLeadById, hid, List.find?, hneg, ih l h]

/-- Effect of the in-place update on any status count: the count stays put
when the touched document already satisfied the predicate the update
establishes, and grows by exactly one otherwise. -/
theorem countP_updateLeadById (p : Lead → Bool) (f : Lead → Lead) (i : Nat)
    (ls : List Lead) :
    ∀ l : Lead, ls.find? (fun x => x.id == i) = some l → p (f l) = true →
      (updateLeadById f ls i).countP p =
        (if p l then ls.countP p else ls.countP p + 1) := by
  induction ls with
  | nil => intro l h _; simp at h
  | cons a as ih =>
    intro l h hpf
    by_cases hid : a.id = i
    · have hpos : (a.id == i) = true := by simp [hid]
      simp only [List.find?, hpos] at h
      injection h with h
      subst h
      by_cases hpa : p a = true <;>
        simp [updateLeadById, hid, List.countP_cons, hpf, hpa]
    · have hneg : (a.id == i) = false := by simp [hid]
      simp only [List.find?, hneg] at h
      have hrec := ih l h hpf
      by_cases hpa : p a = true <;> by_cases hpl : p l = true <;>
        simp [updateLeadById, hid, List.countP_cons, hpa, hpl, hrec]

/-- C3: converting an existing lead creates exactly one new Customer, sets the
source lead's status to Closed Won (appending to its history), and one
conversion never performs more than one transition into Closed Won: the number
of Closed Won leads grows by exactly one when the lead was not yet won and is
unchanged when it already was. -/
theorem convert_lead_spec (db : DB) (leadId freshId : Nat) (l : Lead)
    (h : findLead db leadId = some l) :
    (convert db leadId freshId).customers.length = db.customers.length + 1 ∧
    findLead (convert db leadId freshId) leadId =
      some { l with status := "Closed Won", history := l.history ++ ["converted"] } ∧
    closedWonCount (convert db leadId freshId) =
      (if l.status == "Closed Won" then closedWonCount db else closedWonCount db + 1) ∧
    closedWonCount (convert db leadId freshId) ≤ closedWonCount db + 1 := by
  have hcv : convert db leadId freshId =
      { db with
        customers := db.customers ++
          [{ id := freshId, name := l.name, company := "", email := l.email,
             phone := l.phone, owner := l.assignedAgent, tags := [], notes := [] }]
        leads := updateLeadById
          (fun x => { x with status := "Closed Won", history := x.history ++ ["converted"] })
          db.leads leadId } := by
    rw [convert, h]
  have hfind : findLead (convert db leadId freshId) leadId =
      some { l with status := "Closed Won", history := l.history ++ ["converted"] } := by
    rw [hcv]
    exact find?_updateLeadById
      (fun x => { x with status := "Closed Won", history := x.history ++ ["converted"] })
      leadId (fun x => rfl) db.leads l h
  have hcount : closedWonCount (convert db leadId freshId) =
      (if l.status == "Closed Won" then closedWonCount db else closedWonCount db + 1) := by
    rw [hcv]
    exact countP_updateLeadById (fun x => x.status == "Closed Won")
      (fun x => { x with status := "Closed Won", history := x.history ++ ["converted"] })
      leadId db.leads l h rfl
  refine ⟨?_, hfind, hcount, ?_⟩
  · rw [hcv]
    simp
  · rw [hcount]
    by_cases hl : (l.status == "Closed Won") = true <;> simp [hl]

/-- Evaluation of C3 on a demonstration database holding one New lead. -/
theorem convert_lead_spec_witness :
    findLead demoDB 3 = some demoLead ∧
    ((convert demoDB 3 99).customers.length = demoDB.customers.length + 1 ∧
      findLead (convert demoDB 3 99) 3 =
        some { demoLead with status := "Closed Won", history := demoLead.history ++ ["converted"] } ∧
      closedWonCount (convert demoDB 3 99) =
        (if demoLead.status == "Closed Won" then closedWonCount demoDB
         else closedWonCount demoDB + 1) ∧
      closedWonCount (convert demoDB 3 99) ≤ closedWonCount demoDB + 1) :=
  ⟨rfl, convert_lead_spec demoDB 3 99 demoLead rfl⟩

/-- C4: the seed creates exactly one user with email admin@crm.com — carrying
password Admin@123 and role admin — and against the seeded database the login
endpoint answers 200 with nonempty access and refresh tokens for that
credential pair, and 401 with a message body for the same email and any other
password. -/
theorem seed_admin_login (c : SeedChoices) (now : Int) (pw : String)
    (hpw : ¬ pw = "Admin@123") :
    (seedDB c now).users.filter (fun u => u.email == "admin@crm.com") = [seedAdmin] ∧
    seedAdmin.password = "Admin@123" ∧
    seedAdmin.role = Role.admin ∧
    loginEndpoint (seedDB c now) "admin@crm.com" "Admin@123" =
      LoginResponse.ok (signAccess seedAdmin) (signRefresh seedAdmin) ∧
    ¬ signAccess seedAdmin = "" ∧
    ¬ signRefresh seedAdmin = "" ∧
    loginEndpoint (seedDB c now) "admin@crm.com" pw =
      LoginResponse.unauthorized "Invalid credentials" := by
  refine ⟨rfl, rfl, rfl, rfl, by decide, by decide, ?_⟩
  have hb : (("Admin@123" : String) == pw) = false :=
    beq_eq_false_iff_ne.mpr (fun hx => hpw hx.symm)
  have hfind : findUserByEmail (seedDB c now) "admin@crm.com" = some seedAdmin := rfl
  simp only [loginEndpoint, login, hfind]
  simp [seedAdmin, hb]

/-- Evaluation of C4 on a concrete seed run with the wrong password "wrong". -/
theorem seed_admin_login_witness :
    ¬ ("wrong" : String) = "Admin@123" ∧
    ((seedDB anyChoices 0).users.filter (fun u => u.email == "admin@crm.com") = [seedAdmin] ∧
      seedAdmin.password = "Admin@123" ∧
      seedAdmin.role = Role.admin ∧
      loginEndpoint (seedDB anyChoices 0) "admin@crm.com" "Admin@123" =
        LoginResponse.ok (signAccess seedAdmin) (signRefresh seedAdmin) ∧
      ¬ signAccess seedAdmin = "" ∧
      ¬ signRefresh seedAdmin = "" ∧
      loginEndpoint (seedDB anyChoices 0) "admin@crm.com" "wrong" =
        LoginResponse.unauthorized "Invalid credentials") :=
  ⟨by decide, seed_admin_login anyChoices 0 "wrong" (by decide)⟩

end MiniCRM
